import Mathlib

set_option maxRecDepth 40000

/-!
Verification development for the `snake_macroquad` repository
(`src/main.rs`): a single-player grid snake game with a procedurally
generated wall map, a lobby/settings/play/game-over screen machine, and a
persisted best-score record.

The definitions below are a shallow embedding of the Rust source.
Machine integers (`i32`, `u64`, `u32`) are modelled as `Int`/`Nat` with
explicit `% 2^w` where wraparound matters; `f32` quantities (densities,
time stamps, volumes) are modelled as `Rat` — every fact proved about
them here is an order/equality fact preserved by this choice.

The game uses macroquad's process-global seeded RNG (`quad-rand`).  It is
modelled as an explicit state (`RngState`, a 64-bit xorshift word)
threaded through every call that the source routes through the global
generator; `srand seed` overwrites the state with a function of the seed
alone, exactly as in the library.  The precise output values of the
generator are irrelevant to every theorem below: theorems either hold
for all RNG states/draw sequences, or are evaluated at an explicit
concrete state.
-/

-- Game constants (src/main.rs lines 9-14)
def SCREEN_WIDTH : Int := 320
def SCREEN_HEIGHT : Int := 240
def TILE_SIZE : Int := 10
def GRID_WIDTH : Int := SCREEN_WIDTH / TILE_SIZE
def GRID_HEIGHT : Int := SCREEN_HEIGHT / TILE_SIZE
def DEFAULT_MOVE_INTERVAL : Rat := 12 / 100

-- Direction enum (lines 22-28)
inductive Direction where
  | Up
  | Down
  | Left
  | Right
deriving DecidableEq, Repr

-- The 180-degree reverse of a direction (the guard tested by handle_input).
def Direction.opposite : Direction → Direction
  | .Up => .Down
  | .Down => .Up
  | .Left => .Right
  | .Right => .Left

-- Cell struct (lines 30-34)
structure Cell where
  x : Int
  y : Int
deriving DecidableEq, Repr

/-- The process-global RNG state of macroquad (`quad-rand`): one 64-bit
xorshift word. -/
def RngState : Type := Nat

instance : DecidableEq RngState := instDecidableEqNat

instance : OfNat RngState n := ⟨(n : Nat)⟩

def U64 : Nat := 2 ^ 64

-- One xorshift64 advance of the global RNG word.
def xorshift64 (x : Nat) : Nat :=
  let x1 := (x ^^^ (x <<< 13)) % U64
  let x2 := (x1 ^^^ (x1 >>> 7)) % U64
  (x2 ^^^ (x2 <<< 17)) % U64

/-- `macroquad::rand::srand(seed)`: overwrite the global RNG state with a
function of the seed alone (the previous state is discarded). -/
def srand (seed : Nat) : RngState := seed % U64

-- One draw of a 32-bit value from the global RNG, advancing it.
def randU32 (s : RngState) : Nat × RngState :=
  let s1 := xorshift64 s
  (s1 % 2 ^ 32, s1)

/-- `gen_range(lo, hi)` for floats: a uniform sample in `[lo, hi)`,
modelled over `Rat`. -/
def genRangeFloat (lo hi : Rat) (s : RngState) : Rat × RngState :=
  let p := randU32 s
  (lo + (hi - lo) * ((p.1 : Rat) / 2 ^ 32), p.2)

/-- `gen_range(lo, hi)` for integers: a sample in `[lo, hi)`. -/
def genRangeInt (lo hi : Int) (s : RngState) : Int × RngState :=
  let p := randU32 s
  (lo + (p.1 : Int) % (hi - lo), p.2)

-- MATRIX_GLYPHS (line 48): the decorative glyph alphabet.
def MATRIX_GLYPHS : List Char :=
  ['0', '1', '<', '>', '[', ']', '\x7b', '\x7d', '(', ')', '/', '\\',
   '|', '-', '=', '+', '*', ';', ':', '.', ',', '^', '~',
   'A', 'B', 'C', 'D', 'E', 'F', 'G', 'H', 'I', 'J', 'K', 'L', 'M',
   'N', 'O', 'P', 'Q', 'R', 'S', 'T', 'U', 'V', 'W', 'X', 'Y', 'Z']

-- random_matrix_char (lines 50-53): draw one glyph from the alphabet.
def random_matrix_char (s : RngState) : Char × RngState :=
  let p := genRangeInt 0 MATRIX_GLYPHS.length s
  (MATRIX_GLYPHS.getD p.1.toNat ' ', p.2)

-- Map struct (lines 129-134)
structure Map where
  walls : Finset Cell
  seed : Nat
  wall_density : Rat

-- Map::is_wall (line 137)
def Map.is_wall (m : Map) (c : Cell) : Bool := decide (c ∈ m.walls)

-- Border wall insertion, first loop (lines 146-149): top and bottom rows.
def borderCols (init : Finset Cell) : Finset Cell :=
  (List.range GRID_WIDTH.toNat).foldl
    (fun (acc : Finset Cell) (xi : Nat) =>
      insert (⟨(xi : Int), GRID_HEIGHT - 1⟩ : Cell) (insert ⟨(xi : Int), 0⟩ acc)) init

-- Border wall insertion, second loop (lines 150-153): left and right columns.
def borderRows (init : Finset Cell) : Finset Cell :=
  (List.range GRID_HEIGHT.toNat).foldl
    (fun (acc : Finset Cell) (yi : Nat) =>
      insert (⟨GRID_WIDTH - 1, (yi : Int)⟩ : Cell) (insert ⟨0, (yi : Int)⟩ acc)) init

def insertBorders : Finset Cell := borderRows (borderCols ∅)

-- Safe spawn area (lines 155-157)
def spawnCell : Cell := ⟨GRID_WIDTH / 2, GRID_HEIGHT / 2⟩

def is_spawn_safe (c : Cell) : Bool :=
  decide ((c.x - spawnCell.x).natAbs ≤ 2 ∧ (c.y - spawnCell.y).natAbs ≤ 2)

/-- The interior cells visited by the random-wall loop (lines 160-161),
row-major: `y` in `1..GRID_HEIGHT-1` outer, `x` in `1..GRID_WIDTH-1` inner. -/
def interiorCells : List Cell :=
  (List.range (GRID_HEIGHT.toNat - 2)).flatMap (fun (yi : Nat) =>
    (List.range (GRID_WIDTH.toNat - 2)).map (fun (xi : Nat) =>
      ⟨(xi : Int) + 1, (yi : Int) + 1⟩))

/-- The random interior-wall loop body (lines 160-167): spawn-safe cells are
skipped without consuming a draw; every other cell consumes one float draw
and becomes a wall when the draw is below the density. -/
def interiorLoop (density : Rat) :
    List Cell → Finset Cell → RngState → Finset Cell × RngState
  | [], walls, s => (walls, s)
  | c :: rest, walls, s =>
    if is_spawn_safe c then interiorLoop density rest walls s
    else
      interiorLoop density rest
        (if (genRangeFloat 0 1 s).1 < density then insert c walls else walls)
        (genRangeFloat 0 1 s).2

/-- `Map::generate` (lines 139-170).  The incoming global RNG state `g` is
overwritten by `srand seed` before any draw, so the walls depend only on
`(seed, wall_density)`; the final RNG state is returned alongside. -/
def Map.generate (g : RngState) (seed : Nat) (wall_density : Rat) : Map × RngState :=
  let p := interiorLoop wall_density interiorCells insertBorders (srand seed)
  (⟨p.1, seed, wall_density⟩, p.2)

/-- Fuel bound for the rejection-sampling loop of `spawn_food`.  The Rust
loop is unbounded; `none` below models its divergence (never reached on
the concrete inputs used in this development). -/
def SPAWN_FUEL : Nat := 1000

/-- `SnakeGame::spawn_food` (lines 254-261): rejection-sample an interior
cell that is neither occupied by the snake nor a wall. -/
def spawn_food : Nat → List Cell → Map → RngState → Option (Cell × RngState)
  | 0, _, _, _ => none
  | fuel + 1, occupied, map, s =>
    let px := genRangeInt 1 (GRID_WIDTH - 1) s
    let py := genRangeInt 1 (GRID_HEIGHT - 1) px.2
    let cell : Cell := ⟨px.1, py.1⟩
    if cell ∈ occupied ∨ map.is_wall cell then spawn_food fuel occupied map py.2
    else some (cell, py.2)

/-- SnakeGame struct (lines 173-189).  The two `Sound` handles are
external audio resources with no game-state content and are omitted;
`rng` is the thread-through of the process-global RNG state used by the
game's random draws; `last_move_at` / `move_interval` are the `f32`
time fields, as `Rat`. -/
structure SnakeGame where
  snake : List Cell
  body_chars : List Char
  direction : Direction
  next_direction : Direction
  food : Cell
  food_char : Char
  last_move_at : Rat
  grow : Bool
  score : Nat
  alive : Bool
  map : Map
  move_interval : Rat
  volume : Rat
  rng : RngState

/-- `SnakeGame::new` (lines 211-238).  `none` models divergence of the
food-placement loop. -/
def SnakeGame.new (map : Map) (move_interval : Rat) (volume : Rat) (g : RngState) :
    Option SnakeGame :=
  let start : Cell := ⟨GRID_WIDTH / 2, GRID_HEIGHT / 2⟩
  let initial_snake : List Cell :=
    [start, ⟨start.x - 1, start.y⟩, ⟨start.x - 2, start.y⟩]
  let c1 := random_matrix_char g
  let c2 := random_matrix_char c1.2
  let c3 := random_matrix_char c2.2
  (spawn_food SPAWN_FUEL initial_snake map c3.2).map (fun fs =>
    let fc := random_matrix_char fs.2
    { snake := initial_snake
      body_chars := [c1.1, c2.1, c3.1]
      direction := Direction.Right
      next_direction := Direction.Right
      food := fs.1
      food_char := fc.1
      last_move_at := 0
      grow := false
      score := 0
      alive := true
      map := map
      move_interval := move_interval
      volume := min (max volume 0) 1
      rng := fc.2 })

/-- `SnakeGame::restart` (lines 240-252): reset the run state in place,
keeping the map, speed and volume. -/
def SnakeGame.restart (g : SnakeGame) : Option SnakeGame :=
  let start : Cell := ⟨GRID_WIDTH / 2, GRID_HEIGHT / 2⟩
  let snake : List Cell := [start, ⟨start.x - 1, start.y⟩, ⟨start.x - 2, start.y⟩]
  let c1 := random_matrix_char g.rng
  let c2 := random_matrix_char c1.2
  let c3 := random_matrix_char c2.2
  (spawn_food SPAWN_FUEL snake g.map c3.2).map (fun fs =>
    let fc := random_matrix_char fs.2
    { g with
      snake := snake
      body_chars := [c1.1, c2.1, c3.1]
      direction := Direction.Right
      next_direction := Direction.Right
      food := fs.1
      food_char := fc.1
      last_move_at := 0
      grow := false
      score := 0
      alive := true
      rng := fc.2 })

/-- The edge-triggered key presses consumed by `handle_input`
(lines 264-271): arrow keys and their WASD aliases. -/
structure Keys where
  up : Bool
  w : Bool
  down : Bool
  sKey : Bool
  left : Bool
  a : Bool
  right : Bool
  d : Bool

/-- `SnakeGame::handle_input` (lines 263-273): an else-if chain, priority
Up, Down, Left, Right; a press is committed to `next_direction` only when
it is not the reverse of the current `direction`. -/
def SnakeGame.handle_input (g : SnakeGame) (k : Keys) : SnakeGame :=
  if k.up || k.w then
    if g.direction ≠ Direction.Down then { g with next_direction := Direction.Up } else g
  else if k.down || k.sKey then
    if g.direction ≠ Direction.Up then { g with next_direction := Direction.Down } else g
  else if k.left || k.a then
    if g.direction ≠ Direction.Right then { g with next_direction := Direction.Left } else g
  else if k.right || k.d then
    if g.direction ≠ Direction.Left then { g with next_direction := Direction.Right } else g
  else g

/-- The tentative head cell computed by `step` (lines 280-287).  `step`
first commits `next_direction` to `direction` and then offsets the head
by the committed direction, so the offset is by `next_direction` of the
pre-step state.  (`snake` is never empty in reachable states; the `headD`
default mirrors the panic-free total reading of `self.snake[0]`.) -/
def tentativeCell (g : SnakeGame) : Cell :=
  let head := g.snake.headD ⟨0, 0⟩
  match g.next_direction with
  | .Up => ⟨head.x, head.y - 1⟩
  | .Down => ⟨head.x, head.y + 1⟩
  | .Left => ⟨head.x - 1, head.y⟩
  | .Right => ⟨head.x + 1, head.y⟩

/-- The out-of-bounds test of `step` (line 290). -/
def outOfBoundsB (c : Cell) : Bool :=
  decide (c.x < 0 ∨ c.y < 0 ∨ GRID_WIDTH ≤ c.x ∨ GRID_HEIGHT ≤ c.y)

/-- The tail handling at the end of `step` (lines 321-326): pop the tail
of both lists unless the growth flag is set, in which case clear it. -/
def popOrClear (g : SnakeGame) : SnakeGame :=
  if g.grow = false then
    { g with snake := g.snake.dropLast, body_chars := g.body_chars.dropLast }
  else
    { g with grow := false }

/-- Which collision branch of `step` fired (the three death `return`s at
lines 290-307, in source order). -/
inductive DeathCause where
  | outOfBounds
  | wall
  | selfCollision
deriving DecidableEq, Repr

/-- The body of `SnakeGame::step` past the liveness and cadence gates
(lines 278-327): stamp the move time, commit the pending direction, move
the head and resolve collisions, food and growth.  Factored out of
`stepWithCause` so that it contains no rational-arithmetic branch. -/
def stepMove (g : SnakeGame) (now : Rat) :
    Option (SnakeGame × Option DeathCause) :=
  let g1 := { g with last_move_at := now, direction := g.next_direction }
  let tentative := tentativeCell g
  if outOfBoundsB tentative then some ({ g1 with alive := false }, some .outOfBounds)
  else if g1.map.is_wall tentative then some ({ g1 with alive := false }, some .wall)
  else if tentative ∈ g1.snake then some ({ g1 with alive := false }, some .selfCollision)
  else
    let ch := random_matrix_char g1.rng
    let g2 := { g1 with
                snake := tentative :: g1.snake
                body_chars := ch.1 :: g1.body_chars
                rng := ch.2 }
    if tentative = g2.food then
      match spawn_food SPAWN_FUEL g2.snake g2.map g2.rng with
      | none => none
      | some fs =>
        let fc := random_matrix_char fs.2
        some (popOrClear { g2 with
                           grow := true
                           score := g2.score + 1
                           food := fs.1
                           food_char := fc.1
                           rng := fc.2 }, none)
    else
      some (popOrClear g2, none)

/-- `SnakeGame::step` (lines 275-327), instrumented with the death cause
(which of the three collision `return`s fired, reflecting their source
order).  `now` is the value of `get_time()`; the sub-tick gate compares
`now - last_move_at` against `move_interval`.  `none` models divergence
of the food-placement loop. -/
def SnakeGame.stepWithCause (g : SnakeGame) (now : Rat) :
    Option (SnakeGame × Option DeathCause) :=
  if g.alive = false then some (g, none)
  else if now - g.last_move_at < g.move_interval then some (g, none)
  else stepMove g now

def SnakeGame.step (g : SnakeGame) (now : Rat) : Option SnakeGame :=
  (g.stepWithCause now).map Prod.fst

/-- One interaction applied to a running game: a frame of input handling,
or a `step` call at a given clock value. -/
inductive Op where
  | input (k : Keys)
  | tick (now : Rat)

def applyOp (g : SnakeGame) : Op → Option SnakeGame
  | .input k => some (g.handle_input k)
  | .tick now => g.step now

/-- Run a sequence of `handle_input`/`step` calls from a starting state. -/
def runOps : SnakeGame → List Op → Option SnakeGame
  | g, [] => some g
  | g, op :: rest =>
    match applyOp g op with
    | none => none
    | some g1 => runOps g1 rest

-- SaveData (lines 414-421): the persisted record, numeric fields as in §3.
structure SaveData where
  best_score : Nat
  last_seed : Nat
  last_wall_density : Rat
  last_move_interval : Rat
  sound_volume : Rat
deriving DecidableEq, Repr

-- LobbyState struct (lines 364-373)
structure LobbyState where
  seed : Nat
  wall_density : Rat
  move_interval : Rat
  selected : Int
  preview_map : Map
  preview_pos : Cell
  preview_dir : Direction
  preview_last_move : Rat

/-- `LobbyState::new` (lines 376-399).  `sv` is the record returned by
`load_save()`, `time_seed` the time-derived fallback seed, `g` the global
RNG state.  Zero-valued persisted fields are replaced by defaults; the
persisted density and speed are otherwise used as stored, without
clamping. -/
def LobbyState.new (sv : SaveData) (time_seed : Nat) (g : RngState) :
    LobbyState × RngState :=
  let seed := if sv.last_seed = 0 then time_seed else sv.last_seed
  let wall_density := if sv.last_wall_density = 0 then 1 / 10 else sv.last_wall_density
  let move_interval :=
    if sv.last_move_interval = 0 then DEFAULT_MOVE_INTERVAL else sv.last_move_interval
  let pm := Map.generate g seed wall_density
  ({ seed := seed
     wall_density := wall_density
     move_interval := move_interval
     selected := 0
     preview_map := pm.1
     preview_pos := ⟨GRID_WIDTH / 2, GRID_HEIGHT / 2⟩
     preview_dir := Direction.Right
     preview_last_move := 0 }, pm.2)

/-- The lobby wall-density decrease handler (`Minus` key / `Left` on the
density row, lines 637-646 and 665-668): subtract 0.02, clamp below at
0.0, regenerate the preview map. -/
def lobbyDensityMinus (l : LobbyState) (g : RngState) : LobbyState × RngState :=
  let d := max (l.wall_density - 2 / 100) 0
  let pm := Map.generate g l.seed d
  ({ l with wall_density := d, preview_map := pm.1 }, pm.2)

/-- The lobby wall-density increase handler (`Equal` key / `Right` on the
density row, lines 647-656 and 669-672): add 0.02, clamp above at 0.35,
regenerate the preview map. -/
def lobbyDensityPlus (l : LobbyState) (g : RngState) : LobbyState × RngState :=
  let d := min (l.wall_density + 2 / 100) (35 / 100)
  let pm := Map.generate g l.seed d
  ({ l with wall_density := d, preview_map := pm.1 }, pm.2)

/-- The best-score block run on every frame spent in the GameOver screen
(lines 780-782): reload the save, and if the final score is strictly
greater than the stored best, store it and write the file.  The persisted
file is modelled as the threaded `SaveData`; the returned flag records
whether this frame performed a write. -/
def gameOverSaveFrame (score : Nat) (sv : SaveData) : SaveData × Bool :=
  if sv.best_score < score then ({ sv with best_score := score }, true)
  else (sv, false)

/-- `n` consecutive GameOver frames; the second component counts how many
of them performed a best-score write. -/
def gameOverFrames (score : Nat) : Nat → SaveData → SaveData × Nat
  | 0, sv => (sv, 0)
  | n + 1, sv =>
    let p := gameOverSaveFrame score sv
    let rest := gameOverFrames score n p.1
    (rest.1, (if p.2 then 1 else 0) + rest.2)

/-- A border cell of the grid: an in-grid cell on the outer ring
(x = 0, x = W-1, y = 0 or y = H-1). -/
abbrev isBorder (c : Cell) : Prop :=
  (0 ≤ c.x ∧ c.x < GRID_WIDTH ∧ 0 ≤ c.y ∧ c.y < GRID_HEIGHT) ∧
  (c.x = 0 ∨ c.x = GRID_WIDTH - 1 ∨ c.y = 0 ∨ c.y = GRID_HEIGHT - 1)

/-- Chebyshev distance at most 2 from the grid center cell `(W/2, H/2)`. -/
abbrev chebCenterLe2 (c : Cell) : Prop :=
  max (c.x - spawnCell.x).natAbs (c.y - spawnCell.y).natAbs ≤ 2

/-- A map with no walls at all, used as a concrete environment for the
single-step evaluations below (`step` is defined over any `Map` value). -/
def trivMap : Map := ⟨∅, 0, 0⟩

/-- A concrete reachable-shape game state: a length-4 snake curled into a
hook, head `(5,5)`, tail `(6,5)`, not growing, about to commit a `Right`
turn that moves the head onto the cell the tail currently occupies. -/
def tailChaseState : SnakeGame :=
  { snake := [⟨5, 5⟩, ⟨5, 6⟩, ⟨6, 6⟩, ⟨6, 5⟩]
    body_chars := ['A', 'B', 'C', 'D']
    direction := Direction.Up
    next_direction := Direction.Right
    food := ⟨2, 2⟩
    food_char := '0'
    last_move_at := 0
    grow := false
    score := 1
    alive := true
    map := trivMap
    move_interval := 12 / 100
    volume := 1
    rng := 1 }

/-- A concrete mid-run state: the fresh-spawn snake heading `Right`, food
away from the path, last tick at time 0. -/
def straightState : SnakeGame :=
  { snake := [⟨16, 12⟩, ⟨15, 12⟩, ⟨14, 12⟩]
    body_chars := ['A', 'B', 'C']
    direction := Direction.Right
    next_direction := Direction.Right
    food := ⟨2, 2⟩
    food_char := '0'
    last_move_at := 0
    grow := false
    score := 0
    alive := true
    map := trivMap
    move_interval := 12 / 100
    volume := 1
    rng := 1 }

/-- `straightState` with the food placed directly in the head's path. -/
def eatingState : SnakeGame := { straightState with food := ⟨17, 12⟩ }

/-- A state whose tentative head cell is simultaneously out of bounds and
a current snake cell: head `(0,5)` heading `Left`, body cell at `(-1,5)`. -/
def oobOverlapState : SnakeGame :=
  { snake := [⟨0, 5⟩, ⟨-1, 5⟩]
    body_chars := ['A', 'B']
    direction := Direction.Left
    next_direction := Direction.Left
    food := ⟨2, 2⟩
    food_char := '0'
    last_move_at := 0
    grow := false
    score := 0
    alive := true
    map := trivMap
    move_interval := 12 / 100
    volume := 1
    rng := 1 }

/-- The length bookkeeping invariant of a running game: the snake carries
exactly the three spawn segments plus one per food eaten, and the glyph
list mirrors the body. -/
def c10Inv (g : SnakeGame) : Bool :=
  decide (g.snake.length = g.score + 3 ∧ g.body_chars.length = g.snake.length)

/-- The strengthened inductive invariant: the length bookkeeping plus the
fact that the growth flag is always clear between ticks. -/
def lenInv (g : SnakeGame) : Prop :=
  g.snake.length = g.score + 3 ∧ g.body_chars.length = g.snake.length ∧ g.grow = false

-- ===================================================================
-- Theorems
-- ===================================================================

lemma GRID_WIDTH_eq : GRID_WIDTH = 32 := rfl

lemma GRID_HEIGHT_eq : GRID_HEIGHT = 24 := rfl

lemma spawnCell_eq : spawnCell = ⟨16, 12⟩ := rfl

/-- C2: `Map::generate` begins with `srand(seed)`, which overwrites the
process-global RNG state, so the generated wall set is a function of
`(seed, density)` alone: two calls with identical arguments yield
identical wall sets regardless of the RNG state each call starts from. -/
theorem generate_deterministic (g1 g2 : RngState) (seed : Nat) (d : Rat) :
    (Map.generate g1 seed d).1.walls = (Map.generate g2 seed d).1.walls := rfl

lemma mem_borderColsAux (l : List Nat) (init : Finset Cell) (c : Cell) :
    c ∈ l.foldl
        (fun (acc : Finset Cell) (xi : Nat) => insert (⟨(xi : Int), GRID_HEIGHT - 1⟩ : Cell)
          (insert ⟨(xi : Int), 0⟩ acc)) init ↔
      c ∈ init ∨ ∃ xi ∈ l,
        c = (⟨(xi : Int), 0⟩ : Cell) ∨ c = (⟨(xi : Int), GRID_HEIGHT - 1⟩ : Cell) := by
  induction l generalizing init with
  | nil => simp
  | cons a t ih =>
    simp only [List.foldl_cons, ih, Finset.mem_insert, List.mem_cons]
    aesop

lemma mem_borderRowsAux (l : List Nat) (init : Finset Cell) (c : Cell) :
    c ∈ l.foldl
        (fun (acc : Finset Cell) (yi : Nat) => insert (⟨GRID_WIDTH - 1, (yi : Int)⟩ : Cell)
          (insert ⟨0, (yi : Int)⟩ acc)) init ↔
      c ∈ init ∨ ∃ yi ∈ l,
        c = (⟨0, (yi : Int)⟩ : Cell) ∨ c = (⟨GRID_WIDTH - 1, (yi : Int)⟩ : Cell) := by
  induction l generalizing init with
  | nil => simp
  | cons a t ih =>
    simp only [List.foldl_cons, ih, Finset.mem_insert, List.mem_cons]
    aesop

lemma mem_insertBorders (c : Cell) :
    c ∈ insertBorders ↔
      (∃ xi ∈ List.range GRID_WIDTH.toNat,
        c = (⟨(xi : Int), 0⟩ : Cell) ∨ c = (⟨(xi : Int), GRID_HEIGHT - 1⟩ : Cell)) ∨
      (∃ yi ∈ List.range GRID_HEIGHT.toNat,
        c = (⟨0, (yi : Int)⟩ : Cell) ∨ c = (⟨GRID_WIDTH - 1, (yi : Int)⟩ : Cell)) := by
  unfold insertBorders borderRows borderCols
  rw [mem_borderRowsAux, mem_borderColsAux]
  simp only [Finset.not_mem_empty, false_or]

lemma border_mem_insertBorders (c : Cell) (h : isBorder c) : c ∈ insertBorders := by
  obtain ⟨cx, cy⟩ := c
  obtain ⟨⟨hx0, hxW, hy0, hyH⟩, hb⟩ := h
  rw [mem_insertBorders]
  simp only [GRID_WIDTH_eq, GRID_HEIGHT_eq] at hb hxW hyH ⊢
  simp only at hx0 hy0
  simp only [List.mem_range, Cell.mk.injEq]
  rcases hb with hb | hb | hb | hb
  · exact Or.inr ⟨cy.toNat, by omega, Or.inl ⟨by omega, by omega⟩⟩
  · exact Or.inr ⟨cy.toNat, by omega, Or.inr ⟨by omega, by omega⟩⟩
  · exact Or.inl ⟨cx.toNat, by omega, Or.inl ⟨by omega, by omega⟩⟩
  · exact Or.inl ⟨cx.toNat, by omega, Or.inr ⟨by omega, by omega⟩⟩

lemma insertBorders_coords (c : Cell) (h : c ∈ insertBorders) :
    c.x = 0 ∨ c.x = GRID_WIDTH - 1 ∨ c.y = 0 ∨ c.y = GRID_HEIGHT - 1 := by
  rw [mem_insertBorders] at h
  rcases h with ⟨xi, _, rfl | rfl⟩ | ⟨yi, _, rfl | rfl⟩ <;> simp

lemma interiorLoop_subset (d : Rat) (l : List Cell) (w : Finset Cell) (s : RngState) :
    w ⊆ (interiorLoop d l w s).1 := by
  induction l generalizing w s with
  | nil => intro x hx; simpa [interiorLoop] using hx
  | cons a t ih =>
    intro x hx
    simp only [interiorLoop]
    split
    · exact ih _ _ hx
    · refine ih _ _ ?_
      split
      · exact Finset.mem_insert_of_mem hx
      · exact hx

lemma interiorLoop_mem (d : Rat) (l : List Cell) (w : Finset Cell) (s : RngState)
    (c : Cell) (h : c ∈ (interiorLoop d l w s).1) :
    c ∈ w ∨ is_spawn_safe c = false := by
  induction l generalizing w s with
  | nil => exact Or.inl (by simpa [interiorLoop] using h)
  | cons a t ih =>
    simp only [interiorLoop] at h
    by_cases hs : is_spawn_safe a
    · rw [if_pos hs] at h
      exact ih _ _ h
    · rw [if_neg hs] at h
      rcases ih _ _ h with h1 | h1
      · by_cases hr : (genRangeFloat 0 1 s).1 < d
        · rw [if_pos hr] at h1
          rcases Finset.mem_insert.mp h1 with rfl | h2
          · exact Or.inr (by simpa using hs)
          · exact Or.inl h2
        · rw [if_neg hr] at h1
          exact Or.inl h1
      · exact Or.inr h1

lemma cheb_spawn_safe (c : Cell) (h : chebCenterLe2 c) : is_spawn_safe c = true := by
  unfold is_spawn_safe
  simp only [decide_eq_true_eq]
  simp only [chebCenterLe2, max_le_iff] at h
  exact h

/-- C6: for every prior RNG state, seed and density, the generated map
contains every border cell as a wall (border insertion is unconditional
and the interior loop only ever adds cells), and contains no wall within
Chebyshev distance 2 of the grid center (such cells are spawn-safe and
skipped, and are not border cells). -/
theorem generate_border_walls_and_safe_center (g : RngState) (seed : Nat) (d : Rat)
    (c : Cell) :
    (isBorder c → c ∈ (Map.generate g seed d).1.walls) ∧
    (chebCenterLe2 c → c ∉ (Map.generate g seed d).1.walls) := by
  have hwalls : (Map.generate g seed d).1.walls
      = (interiorLoop d interiorCells insertBorders (srand seed)).1 := rfl
  constructor
  · intro hb
    rw [hwalls]
    exact interiorLoop_subset _ _ _ _ (border_mem_insertBorders c hb)
  · intro hc hmem
    rw [hwalls] at hmem
    rcases interiorLoop_mem _ _ _ _ _ hmem with h1 | h1
    · have hcoord := insertBorders_coords c h1
      have hx := Nat.max_le.mp hc
      rw [spawnCell_eq] at hx
      rw [GRID_WIDTH_eq, GRID_HEIGHT_eq] at hcoord
      obtain ⟨cx, cy⟩ := c
      simp only at hcoord hx ⊢
      omega
    · rw [cheb_spawn_safe c hc] at h1
      exact Bool.noConfusion h1

/-- Witness for C6: the corner cell `(0,0)` is a border cell and is a wall
of the map generated from seed 1 at density 1/10; the center `(16,12)` is
within Chebyshev distance 2 of itself and is not a wall of that map. -/
theorem generate_border_walls_and_safe_center_witness :
    isBorder ⟨0, 0⟩ ∧ (⟨0, 0⟩ : Cell) ∈ (Map.generate 0 1 (1 / 10)).1.walls ∧
    chebCenterLe2 ⟨16, 12⟩ ∧ (⟨16, 12⟩ : Cell) ∉ (Map.generate 0 1 (1 / 10)).1.walls :=
  ⟨by decide,
   (generate_border_walls_and_safe_center 0 1 (1 / 10) ⟨0, 0⟩).1 (by decide),
   by decide,
   (generate_border_walls_and_safe_center 0 1 (1 / 10) ⟨16, 12⟩).2 (by decide)⟩

/-- C7: `handle_input` never writes the 180-degree reverse of the current
direction into `next_direction`: either the pending direction is left
unchanged, or the newly written value is not the reverse of `direction`
(which `handle_input` itself never modifies). -/
theorem handle_input_no_reverse (g : SnakeGame) (k : Keys) :
    (g.handle_input k).direction = g.direction ∧
    ((g.handle_input k).next_direction = g.next_direction ∨
      (g.handle_input k).next_direction ≠ Direction.opposite g.direction) := by
  unfold SnakeGame.handle_input
  cases hd : g.direction <;>
    split_ifs <;> simp_all [Direction.opposite]

/-- Counterexample to C1 as stated: a non-growing snake whose head moves
onto the cell its tail currently occupies.  The self-collision check at
line 303 runs against the pre-pop body, which still contains the tail, so
the move is classified as self-collision and the snake dies — it does not
stay alive as the claim asserts. -/
lemma stepWithCause_tick (g : SnakeGame) (now : Rat)
    (halive : g.alive = true) (htick : ¬ now - g.last_move_at < g.move_interval) :
    g.stepWithCause now = stepMove g now := by
  unfold SnakeGame.stepWithCause
  rw [if_neg (by simp [halive]), if_neg htick]

lemma tailChase_gate :
    ¬ (1 : Rat) - tailChaseState.last_move_at < tailChaseState.move_interval := by
  norm_num [tailChaseState]

theorem tail_chase_dies_cx :
    tailChaseState.grow = false ∧
    tailChaseState.snake.getLast? = some (tentativeCell tailChaseState) ∧
    (tailChaseState.stepWithCause 1).map (fun p => (p.1.alive, p.2))
      = some (false, some DeathCause.selfCollision) := by
  refine ⟨rfl, by decide, ?_⟩
  rw [stepWithCause_tick _ _ rfl tailChase_gate]
  decide

/-- C1 amended: on a tick, if the tentative head cell is in bounds, not a
wall, and equal to the cell currently occupied by the snake's tail, the
move is classified as self-collision and the snake dies — tail-chasing is
illegal (even when the snake is not growing this tick). -/
theorem tail_chase_classified_self_collision (g : SnakeGame) (now : Rat)
    (halive : g.alive = true)
    (htick : ¬ now - g.last_move_at < g.move_interval)
    (hgrow : g.grow = false)
    (hb : outOfBoundsB (tentativeCell g) = false)
    (hw : g.map.is_wall (tentativeCell g) = false)
    (htail : g.snake.getLast? = some (tentativeCell g)) :
    (g.stepWithCause now).map (fun p => (p.1.alive, p.2))
      = some (false, some DeathCause.selfCollision) := by
  have hmem : tentativeCell g ∈ g.snake := List.mem_of_mem_getLast? htail
  rw [stepWithCause_tick g now halive htick]
  simp only [stepMove]
  rw [if_neg (by simp [hb]), if_neg (by simp [hw]), if_pos (by simpa using hmem)]
  rfl

/-- Witness for the amended C1 at a concrete state. -/
theorem tail_chase_classified_self_collision_witness :
    (tailChaseState.stepWithCause 1).map (fun p => (p.1.alive, p.2))
      = some (false, some DeathCause.selfCollision) :=
  tail_chase_classified_self_collision tailChaseState 1 (by decide) tailChase_gate
    (by decide) (by decide) (by decide) (by decide)

lemma popOrClear_last_move_at (g : SnakeGame) :
    (popOrClear g).last_move_at = g.last_move_at := by
  unfold popOrClear
  split <;> rfl

lemma straight_gate :
    ¬ (2 / 10 : Rat) - straightState.last_move_at < straightState.move_interval := by
  norm_num [straightState]

/-- Counterexample to C3 as stated: at `straightState` (`last_move_at = 0`,
`move_interval = 0.12`), a `step` at time 0.2 performs a move and stores
`last_move_at = 0.2` — the current time, making the accumulated elapsed
time zero.  The claim predicts the remainder is carried over, i.e. a
stored value of `last_move_at + move_interval = 0.12`; but `0.2 ≠ 0.12`. -/
theorem step_elapsed_carry_over_cx :
    (straightState.step (2 / 10)).map SnakeGame.last_move_at = some (2 / 10) ∧
    straightState.last_move_at + straightState.move_interval = 12 / 100 ∧
    (2 / 10 : Rat) ≠ 12 / 100 := by
  refine ⟨?_, by norm_num [straightState], by norm_num⟩
  simp only [SnakeGame.step]
  rw [stepWithCause_tick _ _ rfl straight_gate]
  rfl

/-- C3 amended: on every `step` call that performs a move, `last_move_at`
is set to the current time `now` (line 278) — the elapsed-time accumulator
restarts from zero and any overshoot beyond `move_interval` is discarded,
not carried over. -/
theorem step_sets_last_move_at_to_now (g : SnakeGame) (now : Rat)
    (halive : g.alive = true) (htick : ¬ now - g.last_move_at < g.move_interval) :
    (g.step now).map SnakeGame.last_move_at = (g.step now).map (fun _ => now) := by
  simp only [SnakeGame.step, stepWithCause_tick g now halive htick, stepMove]
  split
  · rfl
  · split
    · rfl
    · split
      · rfl
      · split
        · split
          · rfl
          · simp [popOrClear_last_move_at]
        · simp [popOrClear_last_move_at]

/-- Witness for the amended C3 at a concrete state. -/
theorem step_sets_last_move_at_to_now_witness :
    (straightState.step (2 / 10)).map SnakeGame.last_move_at
      = (straightState.step (2 / 10)).map (fun _ => (2 / 10 : Rat)) :=
  step_sets_last_move_at_to_now straightState (2 / 10) rfl straight_gate

/-- C5: the collision checks of `step` run in source order with the first
match winning; in particular a tentative head cell that is simultaneously
out of bounds and a current snake cell is classified as out-of-bounds. -/
theorem collision_precedence_oob_first (g : SnakeGame) (now : Rat)
    (halive : g.alive = true) (htick : ¬ now - g.last_move_at < g.move_interval)
    (hoob : outOfBoundsB (tentativeCell g) = true)
    (hself : tentativeCell g ∈ g.snake) :
    (g.stepWithCause now).map (fun p => (p.1.alive, p.2))
      = some (false, some DeathCause.outOfBounds) := by
  rw [stepWithCause_tick g now halive htick]
  simp only [stepMove]
  rw [if_pos (by simp [hoob])]
  rfl

lemma oobOverlap_gate :
    ¬ (1 : Rat) - oobOverlapState.last_move_at < oobOverlapState.move_interval := by
  norm_num [oobOverlapState]

/-- Witness for C5 at a concrete state whose tentative head cell `(-1,5)`
is both out of bounds and a body cell. -/
theorem collision_precedence_oob_first_witness :
    (oobOverlapState.stepWithCause 1).map (fun p => (p.1.alive, p.2))
      = some (false, some DeathCause.outOfBounds) :=
  collision_precedence_oob_first oobOverlapState 1 rfl oobOverlap_gate
    (by decide) (by decide)

/-- C4: on a tick that performs a move and does not kill the snake, if the
new head cell equals the food cell the snake length grows by exactly one
and the score increments by one (the insert at line 309 is not matched by
a pop, since the growth flag set at line 314 suppresses it at line 321);
on any other such tick the length is unchanged (insert then pop). -/
theorem step_growth_law (g : SnakeGame) (now : Rat)
    (hgrow : g.grow = false)
    (halive : g.alive = true)
    (htick : ¬ now - g.last_move_at < g.move_interval)
    (hnodeath : (g.step now).map SnakeGame.alive = some true) :
    (tentativeCell g = g.food →
      (g.step now).map (fun x => (x.snake.length, x.score))
        = some (g.snake.length + 1, g.score + 1)) ∧
    (tentativeCell g ≠ g.food →
      (g.step now).map (fun x => x.snake.length) = some g.snake.length) := by
  simp only [SnakeGame.step, stepWithCause_tick g now halive htick, stepMove]
    at hnodeath ⊢
  by_cases h1 : outOfBoundsB (tentativeCell g) = true
  · simp [h1] at hnodeath
  · by_cases h2 : g.map.is_wall (tentativeCell g) = true
    · simp [h1, h2] at hnodeath
    · by_cases h3 : tentativeCell g ∈ g.snake
      · simp [h1, h2, h3] at hnodeath
      · by_cases hf : tentativeCell g = g.food
        · have h1f : ¬ outOfBoundsB g.food = true := hf ▸ h1
          have h2f : ¬ g.map.is_wall g.food = true := hf ▸ h2
          have h3f : g.food ∉ g.snake := hf ▸ h3
          rcases hsf : spawn_food SPAWN_FUEL (g.food :: g.snake) g.map
              (random_matrix_char g.rng).2 with _ | fs
          · simp [h1f, h2f, h3f, hf, hsf] at hnodeath
          · constructor
            · intro
              simp [h1f, h2f, h3f, hf, hsf, popOrClear]
            · intro hne
              exact absurd hf hne
        · constructor
          · intro h
            exact absurd h hf
          · intro
            simp [h1, h2, h3, hf, popOrClear, hgrow, List.length_dropLast]

lemma eating_gate :
    ¬ (1 : Rat) - eatingState.last_move_at < eatingState.move_interval := by
  norm_num [eatingState, straightState]

lemma straight_gate_one :
    ¬ (1 : Rat) - straightState.last_move_at < straightState.move_interval := by
  norm_num [straightState]

lemma eating_step_alive : (eatingState.step 1).map SnakeGame.alive = some true := by
  simp only [SnakeGame.step]
  rw [stepWithCause_tick _ _ rfl eating_gate]
  rfl

lemma straight_step_alive : (straightState.step 1).map SnakeGame.alive = some true := by
  simp only [SnakeGame.step]
  rw [stepWithCause_tick _ _ rfl straight_gate_one]
  rfl

/-- Witness for C4: at `eatingState` (food directly in the head's path) a
tick grows the snake from 3 to 4 and bumps the score from 0 to 1; at
`straightState` (food away from the path) a tick leaves the length at 3. -/
theorem step_growth_law_witness :
    (eatingState.step 1).map (fun x => (x.snake.length, x.score))
      = some (eatingState.snake.length + 1, eatingState.score + 1) ∧
    (straightState.step 1).map (fun x => x.snake.length)
      = some straightState.snake.length :=
  ⟨(step_growth_law eatingState 1 rfl rfl eating_gate eating_step_alive).1 (by decide),
   (step_growth_law straightState 1 rfl rfl straight_gate_one straight_step_alive).2
     (by decide)⟩

/-- Counterexample to C8 as stated: `LobbyState::new` does not clamp the
density restored from the persisted save record (line 380 only replaces an
exact 0.0 by the 0.10 default).  A parseable save record carrying
`last_wall_density = 0.5` flows unclamped into the lobby and into its
`Map::generate` call for the preview map, and 0.5 is outside [0, 0.35]. -/
theorem lobby_restored_density_unclamped_cx :
    (LobbyState.new ⟨0, 5, 1 / 2, 0, 0⟩ 42 0).1.wall_density = 1 / 2 ∧
    (LobbyState.new ⟨0, 5, 1 / 2, 0, 0⟩ 42 0).1.preview_map.wall_density = 1 / 2 ∧
    ¬ ((1 / 2 : Rat) ≤ 35 / 100) := by
  refine ⟨?_, ?_, by norm_num⟩ <;>
    · simp only [LobbyState.new, Map.generate]
      norm_num

/-- C8 amended: the lobby's interactive density adjustments clamp to
[0, 0.35], but the value restored from the save record is passed to
`Map::generate` unclamped at lobby construction (only an exact 0.0 is
replaced by the 0.10 default); hence every density the lobby passes to
`Map::generate` lies in [0, 0.35] provided the persisted density itself
does. -/
theorem lobby_density_bounds (sv : SaveData) (t : Nat) (g g1 g2 : RngState)
    (l : LobbyState)
    (hsv0 : 0 ≤ sv.last_wall_density) (hsv1 : sv.last_wall_density ≤ 35 / 100)
    (hl0 : 0 ≤ l.wall_density) (hl1 : l.wall_density ≤ 35 / 100) :
    (0 ≤ (LobbyState.new sv t g).1.wall_density ∧
      (LobbyState.new sv t g).1.wall_density ≤ 35 / 100) ∧
    (0 ≤ (lobbyDensityMinus l g1).1.wall_density ∧
      (lobbyDensityMinus l g1).1.wall_density ≤ 35 / 100) ∧
    (0 ≤ (lobbyDensityPlus l g2).1.wall_density ∧
      (lobbyDensityPlus l g2).1.wall_density ≤ 35 / 100) := by
  refine ⟨?_, ⟨?_, ?_⟩, ⟨?_, ?_⟩⟩
  · simp only [LobbyState.new]
    split
    · constructor <;> norm_num
    · exact ⟨hsv0, hsv1⟩
  · exact le_max_right _ _
  · exact max_le (by linarith) (by norm_num)
  · exact le_min (by linarith) (by norm_num)
  · exact min_le_right _ _

lemma fifth_nonneg : (0 : Rat) ≤ 2 / 10 := by norm_num

lemma fifth_le_clamp : (2 / 10 : Rat) ≤ 35 / 100 := by norm_num

/-- Witness for the amended C8 at a concrete save record and lobby whose
densities are 0.2. -/
theorem lobby_density_bounds_witness :
    (0 ≤ (LobbyState.new ⟨3, 5, 2 / 10, 2 / 10, 1⟩ 42 0).1.wall_density ∧
      (LobbyState.new ⟨3, 5, 2 / 10, 2 / 10, 1⟩ 42 0).1.wall_density ≤ 35 / 100) ∧
    (0 ≤ (lobbyDensityMinus
        ⟨5, 2 / 10, 12 / 100, 0, trivMap, ⟨16, 12⟩, Direction.Right, 0⟩ 0).1.wall_density ∧
      (lobbyDensityMinus
        ⟨5, 2 / 10, 12 / 100, 0, trivMap, ⟨16, 12⟩, Direction.Right, 0⟩ 0).1.wall_density
        ≤ 35 / 100) ∧
    (0 ≤ (lobbyDensityPlus
        ⟨5, 2 / 10, 12 / 100, 0, trivMap, ⟨16, 12⟩, Direction.Right, 0⟩ 0).1.wall_density ∧
      (lobbyDensityPlus
        ⟨5, 2 / 10, 12 / 100, 0, trivMap, ⟨16, 12⟩, Direction.Right, 0⟩ 0).1.wall_density
        ≤ 35 / 100) :=
  lobby_density_bounds ⟨3, 5, 2 / 10, 2 / 10, 1⟩ 42 0 0 0
    ⟨5, 2 / 10, 12 / 100, 0, trivMap, ⟨16, 12⟩, Direction.Right, 0⟩
    fifth_nonneg fifth_le_clamp fifth_nonneg fifth_le_clamp

lemma gameOverFrames_no_write (score : Nat) (n : Nat) (sv : SaveData)
    (h : ¬ sv.best_score < score) : gameOverFrames score n sv = (sv, 0) := by
  induction n with
  | zero => rfl
  | succ n ih => simp [gameOverFrames, gameOverSaveFrame, h, ih]

/-- C9: over any positive number of frames spent in the GameOver screen,
the best-score block performs exactly one write when the final score
strictly exceeds the persisted best (the first frame stores it, raising
the stored best so every later frame's strict comparison fails) and no
write otherwise. -/
theorem gameover_best_write_once (score : Nat) (n : Nat) (sv : SaveData)
    (h : 1 ≤ n) :
    (gameOverFrames score n sv).2 = if sv.best_score < score then 1 else 0 := by
  cases n with
  | zero => omega
  | succ n =>
    by_cases hb : sv.best_score < score
    · have hz := gameOverFrames_no_write score n
        { sv with best_score := score } (by simp)
      simp [gameOverFrames, gameOverSaveFrame, hb, hz]
    · simp [gameOverFrames, gameOverSaveFrame, hb,
        gameOverFrames_no_write score n _ hb]

/-- Witness for C9: three GameOver frames with score 5 against a best of 0
perform exactly one write. -/
theorem gameover_best_write_once_witness :
    (gameOverFrames 5 3 ⟨0, 0, 0, 0, 0⟩).2
      = if (⟨0, 0, 0, 0, 0⟩ : SaveData).best_score < 5 then 1 else 0 :=
  gameover_best_write_once 5 3 ⟨0, 0, 0, 0, 0⟩ (by decide)

lemma lenInv_handle_input (g : SnakeGame) (k : Keys) (h : lenInv g) :
    lenInv (g.handle_input k) := by
  unfold SnakeGame.handle_input
  split_ifs <;> simpa [lenInv] using h

lemma lenInv_step (g : SnakeGame) (now : Rat) (g1 : SnakeGame)
    (h : lenInv g) (hstep : g.step now = some g1) : lenInv g1 := by
  obtain ⟨h1, h2, h3⟩ := h
  unfold SnakeGame.step SnakeGame.stepWithCause at hstep
  split at hstep
  · simp only [Option.map_some'] at hstep
    cases hstep
    exact ⟨h1, h2, h3⟩
  · split at hstep
    · simp only [Option.map_some'] at hstep
      cases hstep
      exact ⟨h1, h2, h3⟩
    · simp only [stepMove] at hstep
      split at hstep
      · simp only [Option.map_some'] at hstep
        cases hstep
        exact ⟨h1, h2, h3⟩
      · split at hstep
        · simp only [Option.map_some'] at hstep
          cases hstep
          exact ⟨h1, h2, h3⟩
        · split at hstep
          · simp only [Option.map_some'] at hstep
            cases hstep
            exact ⟨h1, h2, h3⟩
          · split at hstep
            · -- eating tick: insert without pop
              split at hstep
              · cases hstep
              · simp only [Option.map_some'] at hstep
                cases hstep
                simp only [lenInv, popOrClear]
                simp [h1, h2]
            · -- plain tick: insert then pop
              simp only [Option.map_some'] at hstep
              cases hstep
              simp only [lenInv, popOrClear, h3]
              simp [h1, h2, List.length_dropLast]

lemma lenInv_new (m : Map) (mi v : Rat) (r : RngState) (g : SnakeGame)
    (h : SnakeGame.new m mi v r = some g) : lenInv g := by
  unfold SnakeGame.new at h
  obtain ⟨fs, hsf, rfl⟩ := Option.map_eq_some'.mp h
  simp [lenInv]

lemma lenInv_restart (gp : SnakeGame) (g : SnakeGame)
    (h : gp.restart = some g) : lenInv g := by
  unfold SnakeGame.restart at h
  obtain ⟨fs, hsf, rfl⟩ := Option.map_eq_some'.mp h
  simp [lenInv]

lemma lenInv_runOps (ops : List Op) (g g1 : SnakeGame)
    (h : lenInv g) (hrun : runOps g ops = some g1) : lenInv g1 := by
  induction ops generalizing g with
  | nil =>
    simp only [runOps] at hrun
    cases hrun
    exact h
  | cons op rest ih =>
    unfold runOps at hrun
    rcases hop : applyOp g op with _ | g2
    · rw [hop] at hrun
      cases hrun
    · rw [hop] at hrun
      refine ih g2 ?_ hrun
      rcases op with k | now
      · simp only [applyOp, Option.some.injEq] at hop
        cases hop
        exact lenInv_handle_input _ _ h
      · exact lenInv_step g now g2 h hop

/-- C10: in every game state reachable from `SnakeGame::new` or
`SnakeGame::restart` by any sequence of `handle_input` and `step` calls,
the snake's length equals `score + 3` and `body_chars` has the same
length as the snake body. -/
theorem reachable_length_invariant (ops : List Op) (m : Map) (mi v : Rat)
    (r : RngState) (gp : SnakeGame) :
    Option.all c10Inv ((SnakeGame.new m mi v r).bind (fun g0 => runOps g0 ops))
      = true ∧
    Option.all c10Inv (gp.restart.bind (fun g0 => runOps g0 ops)) = true := by
  constructor
  · rcases hn : SnakeGame.new m mi v r with _ | g0
    · rfl
    · rcases hr : runOps g0 ops with _ | g1
      · simp [hr]
      · have hi := lenInv_runOps ops g0 g1 (lenInv_new m mi v r g0 hn) hr
        simp [hr, c10Inv, hi.1, hi.2.1]
  · rcases hn : gp.restart with _ | g0
    · rfl
    · rcases hr : runOps g0 ops with _ | g1
      · simp [hr]
      · have hi := lenInv_runOps ops g0 g1 (lenInv_restart gp g0 hn) hr
        simp [hr, c10Inv, hi.1, hi.2.1]
